import Mathlib

/-
  Verification development for the ZK.AI ClientsHub authentication layer.

  The repository has two source files:
  - src/src/App.tsx: the router component AppContent, a pure function of
    the auth store fields {loading, user, profile};
  - the auth context module (AuthContext.tsx): the auth state store with
    bootstrap (initializeAuth), the auth-event listener (onAuthStateChange
    handler), profile fetching with retry (fetchProfile), and the mutation
    operations signOut, updateProfile, createClient, plus the useAuth hook.

  The embedding below is a shallow state-passing translation: React state
  setters become functional updates of an AuthState record; each await on
  the provider is replaced by an explicit outcome parameter describing what
  the provider returned (or that it threw); every provider round trip is
  recorded in a call trace so that "does not call the provider" claims are
  statable; writes to the loading flag are recorded in a write trace for
  the temporal claim about loading.  The component is modelled as mounted
  throughout (the mounted guard is always true).

  The auth listener callback is created inside the mount-only effect (its
  dependency array is empty), so it closes over the first render's profile
  and initialized bindings for its whole lifetime: those two reads inside
  the callback are therefore embedded as the constants none and false, not
  as reads of the current store state.
-/

namespace ClientsHub

/-- Identity record asserted by the external provider (id, email). -/
structure User where
  id : String
  email : String
deriving DecidableEq, Repr

/-- Provider session.  The code tests session?.user, so the user slot is
modelled as optional: a session whose user slot is empty is treated like a
missing session by every branch that performs that test. -/
structure Session where
  user : Option User
  accessToken : String
deriving DecidableEq, Repr

/-- Application-owned profile row from the profiles table; the code reads
id and role, and the registration flow writes id, email, full_name, role. -/
structure Profile where
  id : String
  email : String
  full_name : Option String
  role : String
  updated_at : String
deriving DecidableEq, Repr

/-- The React state of AuthProvider: user, profile, session, loading,
error, initialized. -/
structure AuthState where
  user : Option User
  profile : Option Profile
  session : Option Session
  loading : Bool
  error : Option String
  initialized : Bool
deriving DecidableEq, Repr

/-- The useState initial values: nulls, loading = true, initialized = false. -/
def initialState : AuthState :=
  { user := none, profile := none, session := none,
    loading := true, error := none, initialized := false }

/-! Section: Router (src/src/App.tsx, AppContent) -/

/-- The five things AppContent can render. -/
inductive View where
  | loadingScreen
  | authForm
  | profilePending
  | adminPortal
  | clientPortal
deriving DecidableEq, Repr

/-- Shallow embedding of AppContent (App.tsx lines 8-50): the early return
on loading, then on missing user, then on missing profile, then the role
test profile.role === .admin. -/
def AppContent (loading : Bool) (user : Option User) (profile : Option Profile) : View :=
  if loading then
    View.loadingScreen
  else
    match user with
    | none => View.authForm
    | some _ =>
      match profile with
      | none => View.profilePending
      | some p =>
        if p.role = "admin" then View.adminPortal else View.clientPortal

/-- Modelled from the spec (section 4.2): states, in priority order,
loading, then unauthenticated (no user), then profile-pending (user but no
profile), then admin view (profile.role == admin), otherwise client view. -/
def routerSpec (loading : Bool) (user : Option User) (profile : Option Profile) : View :=
  if loading then View.loadingScreen
  else if user.isNone then View.authForm
  else if profile.isNone then View.profilePending
  else if (profile.map Profile.role).getD "" = "admin" then View.adminPortal
  else View.clientPortal

/-- Claim C1: the router is a pure function of {loading, user, profile}
(it is a function, so it renders exactly one view per state), and the view
it renders is chosen in the spec priority order: loading screen if loading,
else login form if no user, else profile-provisioning screen if no profile,
else admin view when profile.role equals admin, else client view. -/
theorem C1_router_priority (loading : Bool) (user : Option User)
    (profile : Option Profile) :
    AppContent loading user profile = routerSpec loading user profile := by
  cases loading with
  | true => rfl
  | false =>
    cases user with
    | none => rfl
    | some u =>
      cases profile with
      | none => rfl
      | some p =>
        by_cases h : p.role = "admin" <;>
          simp [AppContent, routerSpec, h]

/-! Section: Provider round trips -/

/-- Partial profile update payload (Partial of Profile) passed to
updateProfile. -/
structure ProfileUpdates where
  email : Option String
  full_name : Option String
  role : Option String
deriving DecidableEq, Repr

/-- One round trip to the external provider, with its payload, as recorded
in the call traces of the operations below. -/
inductive ProviderCall where
  | getSession
  | profileSelect (userId : String)
  | authSignOut
  | adminCreateUser (email password : String) (emailConfirm : Bool)
      (fullName : Option String) (requiresPasswordChange : Bool)
  | profileInsert (id email : String) (fullName : Option String) (role : String)
  | profileUpdate (id : String) (updates : ProfileUpdates) (updated_at : String)
deriving DecidableEq, Repr

/-- What one profiles select-by-id round trip returns: a row, or an error
object carrying a code (a thrown exception from the await is modelled as an
err with the code of the thrown error; only the code PGRST116 is ever
inspected). -/
inductive QueryResult where
  | ok (p : Profile)
  | err (code : String)
deriving DecidableEq, Repr

/-- True when the result makes fetchProfile take its retry path: any error
whose code is not PGRST116. -/
def isRetryableErr : QueryResult → Bool
  | QueryResult.ok _ => false
  | QueryResult.err code => code != "PGRST116"

/-- Which return statement of fetchProfile fired: the success return, the
profile-not-found return (code PGRST116), the all-attempts-failed return,
or the guard return when the provider client is absent. -/
inductive FetchEnd where
  | success
  | notFound
  | exhausted
  | noClient
deriving DecidableEq, Repr

/-- Result of a fetchProfile run: the returned profile, how many attempts
were made, the backoff delays (in ms) slept between attempts, the provider
calls made, and which terminal return fired. -/
structure FetchResult where
  profile : Option Profile
  attempts : Nat
  delays : List Nat
  calls : List ProviderCall
  ending : FetchEnd
deriving DecidableEq, Repr

/-- The retry loop of fetchProfile, at loop counter attempt.  Each
iteration performs one select round trip (responses attempt); an error
with code PGRST116 returns null at once; another error either returns null
(last attempt) or sleeps 2 ^ attempt * 500 ms and continues; a row returns
it.  The attempt > retries guard is the return null after the loop. -/
def fetchProfileGo (responses : Nat → QueryResult) (userId : String)
    (retries : Nat) (attempt : Nat) : FetchResult :=
  if _hstop : retries < attempt then
    { profile := none, attempts := retries, delays := [], calls := [],
      ending := FetchEnd.exhausted }
  else
    match responses attempt with
    | QueryResult.ok p =>
      { profile := some p, attempts := attempt, delays := [],
        calls := [ProviderCall.profileSelect userId], ending := FetchEnd.success }
    | QueryResult.err code =>
      if code = "PGRST116" then
        { profile := none, attempts := attempt, delays := [],
          calls := [ProviderCall.profileSelect userId], ending := FetchEnd.notFound }
      else if attempt = retries then
        { profile := none, attempts := attempt, delays := [],
          calls := [ProviderCall.profileSelect userId], ending := FetchEnd.exhausted }
      else
        let rest := fetchProfileGo responses userId retries (attempt + 1)
        { profile := rest.profile, attempts := rest.attempts,
          delays := 2 ^ attempt * 500 :: rest.delays,
          calls := ProviderCall.profileSelect userId :: rest.calls,
          ending := rest.ending }
termination_by retries + 1 - attempt
decreasing_by omega

/-- fetchProfile(userId): returns null at once when the provider client is
absent, else runs the loop from attempt 1 with the default retries = 3
(every call site uses the default). -/
def fetchProfile (cfg : Bool) (responses : Nat → QueryResult)
    (userId : String) : FetchResult :=
  if cfg then fetchProfileGo responses userId 3 1
  else { profile := none, attempts := 0, delays := [], calls := [],
         ending := FetchEnd.noClient }

/-- Unfolding step of the retry loop: a row at a reachable attempt returns
it at once. -/
theorem fetchProfileGo_ok {responses : Nat → QueryResult} {uid : String}
    {retries attempt : Nat} {p : Profile}
    (hle : attempt ≤ retries) (hr : responses attempt = QueryResult.ok p) :
    fetchProfileGo responses uid retries attempt =
      { profile := some p, attempts := attempt, delays := [],
        calls := [ProviderCall.profileSelect uid], ending := FetchEnd.success } := by
  rw [fetchProfileGo.eq_def, dif_neg (by omega), hr]

/-- Unfolding step of the retry loop: a PGRST116 error at a reachable
attempt returns null at once. -/
theorem fetchProfileGo_notFound {responses : Nat → QueryResult} {uid : String}
    {retries attempt : Nat}
    (hle : attempt ≤ retries) (hr : responses attempt = QueryResult.err "PGRST116") :
    fetchProfileGo responses uid retries attempt =
      { profile := none, attempts := attempt, delays := [],
        calls := [ProviderCall.profileSelect uid], ending := FetchEnd.notFound } := by
  rw [fetchProfileGo.eq_def, dif_neg (by omega), hr]
  simp

/-- Unfolding step of the retry loop: a non-PGRST116 error at the last
attempt returns null. -/
theorem fetchProfileGo_last {responses : Nat → QueryResult} {uid : String}
    {retries attempt : Nat} {code : String}
    (_hle : attempt ≤ retries) (hr : responses attempt = QueryResult.err code)
    (hc : code ≠ "PGRST116") (hlast : attempt = retries) :
    fetchProfileGo responses uid retries attempt =
      { profile := none, attempts := attempt, delays := [],
        calls := [ProviderCall.profileSelect uid], ending := FetchEnd.exhausted } := by
  rw [fetchProfileGo.eq_def, dif_neg (by omega), hr]
  simp [hc, hlast]

/-- Unfolding step of the retry loop: a non-PGRST116 error before the last
attempt sleeps 2 ^ attempt * 500 ms and retries. -/
theorem fetchProfileGo_retry {responses : Nat → QueryResult} {uid : String}
    {retries attempt : Nat} {code : String}
    (hle : attempt ≤ retries) (hr : responses attempt = QueryResult.err code)
    (hc : code ≠ "PGRST116") (hlast : attempt ≠ retries) :
    fetchProfileGo responses uid retries attempt =
      { profile := (fetchProfileGo responses uid retries (attempt + 1)).profile,
        attempts := (fetchProfileGo responses uid retries (attempt + 1)).attempts,
        delays := 2 ^ attempt * 500
          :: (fetchProfileGo responses uid retries (attempt + 1)).delays,
        calls := ProviderCall.profileSelect uid
          :: (fetchProfileGo responses uid retries (attempt + 1)).calls,
        ending := (fetchProfileGo responses uid retries (attempt + 1)).ending } := by
  rw [fetchProfileGo.eq_def, dif_neg (by omega), hr]
  simp [hc, hlast]

/-- Claim C3: for every user id, the profile fetch makes at most 3
attempts; a PGRST116 (not found) result at any of the three reachable
attempts returns null immediately, with no further attempts and with the
not-found (non-error) ending rather than the failure ending; any other
failure at attempt n < 3 is retried after a delay of 2 ^ n * 500 ms; and
after the third failed attempt the fetch returns null with no error
surfaced (the function returns a plain null, ending exhausted, rather than
throwing to its caller). -/
theorem C3_fetchProfile_retry (responses : Nat → QueryResult) (uid : String) :
    (fetchProfile true responses uid).attempts ≤ 3
    ∧ (responses 1 = QueryResult.err "PGRST116" →
        fetchProfile true responses uid =
          { profile := none, attempts := 1, delays := [],
            calls := [ProviderCall.profileSelect uid],
            ending := FetchEnd.notFound })
    ∧ (isRetryableErr (responses 1) = true →
        responses 2 = QueryResult.err "PGRST116" →
        fetchProfile true responses uid =
          { profile := none, attempts := 2, delays := [2 ^ 1 * 500],
            calls := [ProviderCall.profileSelect uid,
                      ProviderCall.profileSelect uid],
            ending := FetchEnd.notFound })
    ∧ (isRetryableErr (responses 1) = true →
        isRetryableErr (responses 2) = true →
        responses 3 = QueryResult.err "PGRST116" →
        fetchProfile true responses uid =
          { profile := none, attempts := 3, delays := [2 ^ 1 * 500, 2 ^ 2 * 500],
            calls := [ProviderCall.profileSelect uid,
                      ProviderCall.profileSelect uid,
                      ProviderCall.profileSelect uid],
            ending := FetchEnd.notFound })
    ∧ (isRetryableErr (responses 1) = true →
        2 ^ 1 * 500 ∈ (fetchProfile true responses uid).delays)
    ∧ (isRetryableErr (responses 1) = true →
        isRetryableErr (responses 2) = true →
        2 ^ 2 * 500 ∈ (fetchProfile true responses uid).delays)
    ∧ (isRetryableErr (responses 1) = true →
        isRetryableErr (responses 2) = true →
        isRetryableErr (responses 3) = true →
        fetchProfile true responses uid =
          { profile := none, attempts := 3, delays := [2 ^ 1 * 500, 2 ^ 2 * 500],
            calls := [ProviderCall.profileSelect uid,
                      ProviderCall.profileSelect uid,
                      ProviderCall.profileSelect uid],
            ending := FetchEnd.exhausted }) := by
  have hfe : fetchProfile true responses uid = fetchProfileGo responses uid 3 1 := rfl
  cases h1 : responses 1 with
  | ok p1 =>
    have hf := @fetchProfileGo_ok responses uid 3 1 p1 (by omega) h1
    refine ⟨?_, ?_, ?_, ?_, ?_, ?_, ?_⟩ <;>
      simp [hfe, hf, h1, isRetryableErr]
  | err c1 =>
    by_cases hc1 : c1 = "PGRST116"
    · subst hc1
      have hf := @fetchProfileGo_notFound responses uid 3 1 (by omega) h1
      refine ⟨?_, ?_, ?_, ?_, ?_, ?_, ?_⟩ <;>
        simp [hfe, hf, h1, isRetryableErr]
    · have hstep1 := @fetchProfileGo_retry responses uid 3 1 c1 (by omega) h1 hc1 (by omega)
      cases h2 : responses 2 with
      | ok p2 =>
        have hf2 := @fetchProfileGo_ok responses uid 3 2 p2 (by omega) h2
        have hfull : fetchProfileGo responses uid 3 1 =
            { profile := some p2, attempts := 2, delays := [2 ^ 1 * 500],
              calls := [ProviderCall.profileSelect uid,
                        ProviderCall.profileSelect uid],
              ending := FetchEnd.success } := by
          rw [hstep1, hf2]
        refine ⟨?_, ?_, ?_, ?_, ?_, ?_, ?_⟩ <;>
          simp [hfe, hfull, h1, h2, isRetryableErr, hc1]
      | err c2 =>
        by_cases hc2 : c2 = "PGRST116"
        · subst hc2
          have hf2 := @fetchProfileGo_notFound responses uid 3 2 (by omega) h2
          have hfull : fetchProfileGo responses uid 3 1 =
              { profile := none, attempts := 2, delays := [2 ^ 1 * 500],
                calls := [ProviderCall.profileSelect uid,
                          ProviderCall.profileSelect uid],
                ending := FetchEnd.notFound } := by
            rw [hstep1, hf2]
          refine ⟨?_, ?_, ?_, ?_, ?_, ?_, ?_⟩ <;>
            simp [hfe, hfull, h1, h2, isRetryableErr, hc1]
        · have hstep2 := @fetchProfileGo_retry responses uid 3 2 c2 (by omega) h2 hc2 (by omega)
          cases h3 : responses 3 with
          | ok p3 =>
            have hf3 := @fetchProfileGo_ok responses uid 3 3 p3 (by omega) h3
            have hfull : fetchProfileGo responses uid 3 1 =
                { profile := some p3, attempts := 3,
                  delays := [2 ^ 1 * 500, 2 ^ 2 * 500],
                  calls := [ProviderCall.profileSelect uid,
                            ProviderCall.profileSelect uid,
                            ProviderCall.profileSelect uid],
                  ending := FetchEnd.success } := by
              rw [hstep1, hstep2, hf3]
            refine ⟨?_, ?_, ?_, ?_, ?_, ?_, ?_⟩ <;>
              simp [hfe, hfull, h1, h2, h3, isRetryableErr, hc1, hc2]
          | err c3 =>
            by_cases hc3 : c3 = "PGRST116"
            · subst hc3
              have hf3 := @fetchProfileGo_notFound responses uid 3 3 (by omega) h3
              have hfull : fetchProfileGo responses uid 3 1 =
                  { profile := none, attempts := 3,
                    delays := [2 ^ 1 * 500, 2 ^ 2 * 500],
                    calls := [ProviderCall.profileSelect uid,
                              ProviderCall.profileSelect uid,
                              ProviderCall.profileSelect uid],
                    ending := FetchEnd.notFound } := by
                rw [hstep1, hstep2, hf3]
              refine ⟨?_, ?_, ?_, ?_, ?_, ?_, ?_⟩ <;>
                simp [hfe, hfull, h1, h2, h3, isRetryableErr, hc1, hc2]
            · have hf3 := @fetchProfileGo_last responses uid 3 3 c3 (by omega) h3 hc3 rfl
              have hfull : fetchProfileGo responses uid 3 1 =
                  { profile := none, attempts := 3,
                    delays := [2 ^ 1 * 500, 2 ^ 2 * 500],
                    calls := [ProviderCall.profileSelect uid,
                              ProviderCall.profileSelect uid,
                              ProviderCall.profileSelect uid],
                    ending := FetchEnd.exhausted } := by
                rw [hstep1, hstep2, hf3]
              refine ⟨?_, ?_, ?_, ?_, ?_, ?_, ?_⟩ <;>
                simp [hfe, hfull, h1, h2, h3, isRetryableErr, hc1, hc2, hc3]

/-- A concrete response schedule: a retryable error at attempt 1, then
profile-not-found. -/
def respW3 : Nat → QueryResult := fun n =>
  if n = 1 then QueryResult.err "500" else QueryResult.err "PGRST116"

/-- Witness for C3 at a concrete schedule: one retryable failure, then a
not-found, stops after attempt 2 with one 1000 ms backoff and no error. -/
theorem C3_fetchProfile_retry_witness :
    fetchProfile true respW3 "u1" =
      { profile := none, attempts := 2, delays := [2 ^ 1 * 500],
        calls := [ProviderCall.profileSelect "u1",
                  ProviderCall.profileSelect "u1"],
        ending := FetchEnd.notFound } :=
  (C3_fetchProfile_retry respW3 "u1").2.2.1 (by decide) (by decide)

/-! Section: Auth state store: bootstrap -/

/-- clearAuthState: sets user, profile, session and error to null (loading
and initialized are untouched). -/
def clearAuthState (st : AuthState) : AuthState :=
  { st with user := none, profile := none, session := none, error := none }

/-- What the raced initial getSession round trip produced: a resolved
answer with a null error field and a (possibly null) session, a resolved
answer with a non-null error field, the 5-second timeout rejection, or any
other thrown failure.  Timeout and thrown failure both land in the same
catch block. -/
inductive SessionFetchOutcome where
  | ok (s : Option Session)
  | errResult
  | timeout
  | threw
deriving DecidableEq, Repr

/-- Result of one initializeAuth run: the final store state, the provider
calls made, and every value written to the loading flag, in order. -/
structure InitResult where
  state : AuthState
  calls : List ProviderCall
  loadingWrites : List Bool
deriving DecidableEq, Repr

/-- The configuration error message set when the provider is absent. -/
def configErrorMessage : String :=
  "Supabase is not configured. Please connect to Supabase."

/-- Shallow embedding of initializeAuth, with the component mounted
throughout.  Unconfigured: set the configuration error, finish loading,
mark initialized, touch nothing else and make no provider call.
Configured: perform getSession; a session error, the timeout or a thrown
failure all clear the auth state and finish loading; a session with a user
is adopted and its profile fetched; no session (or a session with no user)
clears the auth state; every branch then finishes loading and marks
initialized. -/
def initializeAuth (cfg : Bool) (outcome : SessionFetchOutcome)
    (responses : Nat → QueryResult) (st : AuthState) : InitResult :=
  if cfg = false then
    { state := { st with
                 error := some configErrorMessage,
                 loading := false, initialized := true },
      calls := [], loadingWrites := [false] }
  else
    match outcome with
    | SessionFetchOutcome.errResult =>
      { state := { clearAuthState st with loading := false, initialized := true },
        calls := [ProviderCall.getSession], loadingWrites := [false] }
    | SessionFetchOutcome.timeout =>
      { state := { clearAuthState st with loading := false, initialized := true },
        calls := [ProviderCall.getSession], loadingWrites := [false] }
    | SessionFetchOutcome.threw =>
      { state := { clearAuthState st with loading := false, initialized := true },
        calls := [ProviderCall.getSession], loadingWrites := [false] }
    | SessionFetchOutcome.ok sess =>
      match sess with
      | none =>
        { state := { clearAuthState st with loading := false, initialized := true },
          calls := [ProviderCall.getSession], loadingWrites := [false] }
      | some s =>
        match s.user with
        | none =>
          { state := { clearAuthState st with loading := false, initialized := true },
            calls := [ProviderCall.getSession], loadingWrites := [false] }
        | some u =>
          let fr := fetchProfile true responses u.id
          { state := { st with
                       session := some s, user := some u,
                       profile := fr.profile, loading := false, initialized := true },
            calls := ProviderCall.getSession :: fr.calls,
            loadingWrites := [false] }

/-- Claim C2: with the provider unconfigured, initialization from the
initial store state terminates with loading = false, user = null and the
configuration error message set, makes no provider call whatever the
provider would have answered, and lands in the terminal initialized state
(the bootstrap effect runs once, so nothing retries it). -/
theorem C2_unconfigured_terminal (outcome : SessionFetchOutcome)
    (responses : Nat → QueryResult) :
    (initializeAuth false outcome responses initialState).state.loading = false
    ∧ (initializeAuth false outcome responses initialState).state.user = none
    ∧ (initializeAuth false outcome responses initialState).state.error
        = some configErrorMessage
    ∧ (initializeAuth false outcome responses initialState).state.initialized = true
    ∧ (initializeAuth false outcome responses initialState).calls = [] := by
  refine ⟨rfl, rfl, rfl, rfl, rfl⟩

/-! Section: Auth state store: the onAuthStateChange listener -/

/-- The provider auth events the switch distinguishes; every other event
name lands in the default case. -/
inductive AuthEvent where
  | SIGNED_IN
  | TOKEN_REFRESHED
  | SIGNED_OUT
  | USER_UPDATED
  | other (name : String)
deriving DecidableEq, Repr

/-- Result of handling one auth event: the new store state, the provider
calls made while handling it, and the values written to the loading flag
(by the finally block). -/
structure EventResult where
  state : AuthState
  calls : List ProviderCall
  loadingWrites : List Bool
deriving DecidableEq, Repr

/-- The finally block of the listener callback: it tests the closure's
initialized binding, which is the first-render value and thus permanently
false, so the test always passes and every event handled while mounted
writes loading := false and marks the store initialized. -/
def eventFinally (r : EventResult) : EventResult :=
  { r with
    state := { r.state with loading := false, initialized := true },
    loadingWrites := r.loadingWrites ++ [false] }

/-- Shallow embedding of the onAuthStateChange callback (registered only
when the provider is configured), mounted throughout.  SIGNED_IN and
TOKEN_REFRESHED with a session user adopt session and user, clear error
and refetch the profile; SIGNED_OUT clears the auth state; USER_UPDATED
with a session user adopts session and user only; every other event with a
session user adopts session and user and then tests the profile-or-id
guard — but against the closure's profile binding, which is the
first-render value and thus permanently null, so the guard always passes
and the profile is refetched on every such event; every other event
without a session user clears the auth state.  The finally block then
writes loading := false on every event (see eventFinally). -/
def handleAuthEvent (responses : Nat → QueryResult) (ev : AuthEvent)
    (sess : Option Session) (st : AuthState) : EventResult :=
  let base : EventResult :=
    match ev with
    | AuthEvent.SIGNED_IN | AuthEvent.TOKEN_REFRESHED =>
      match sess with
      | some s =>
        match s.user with
        | some u =>
          let fr := fetchProfile true responses u.id
          { state := { st with
                       session := some s, user := some u, error := none,
                       profile := fr.profile },
            calls := fr.calls, loadingWrites := [] }
        | none => { state := st, calls := [], loadingWrites := [] }
      | none => { state := st, calls := [], loadingWrites := [] }
    | AuthEvent.SIGNED_OUT =>
      { state := clearAuthState st, calls := [], loadingWrites := [] }
    | AuthEvent.USER_UPDATED =>
      match sess with
      | some s =>
        match s.user with
        | some u =>
          { state := { st with session := some s, user := some u },
            calls := [], loadingWrites := [] }
        | none => { state := st, calls := [], loadingWrites := [] }
      | none => { state := st, calls := [], loadingWrites := [] }
    | AuthEvent.other _ =>
      match sess with
      | some s =>
        match s.user with
        | some u =>
          let adopted : AuthState := { st with session := some s, user := some u }
          let closureProfile : Option Profile := none
          let needFetch : Bool :=
            match closureProfile with
            | none => true
            | some p => p.id != u.id
          if needFetch then
            let fr := fetchProfile true responses u.id
            { state := { adopted with profile := fr.profile },
              calls := fr.calls, loadingWrites := [] }
          else
            { state := adopted, calls := [], loadingWrites := [] }
        | none =>
          { state := clearAuthState st, calls := [], loadingWrites := [] }
      | none =>
        { state := clearAuthState st, calls := [], loadingWrites := [] }
  eventFinally base

/-- Claim C4: handling SIGNED_OUT sets user, profile, session and error
all to null, from every prior store state and also when a session object
accompanies the event. -/
theorem C4_signed_out_clears (responses : Nat → QueryResult)
    (sess : Option Session) (st : AuthState) :
    (handleAuthEvent responses AuthEvent.SIGNED_OUT sess st).state.user = none
    ∧ (handleAuthEvent responses AuthEvent.SIGNED_OUT sess st).state.profile = none
    ∧ (handleAuthEvent responses AuthEvent.SIGNED_OUT sess st).state.session = none
    ∧ (handleAuthEvent responses AuthEvent.SIGNED_OUT sess st).state.error = none := by
  refine ⟨rfl, rfl, rfl, rfl⟩

/-- An invoked profile fetch always performs at least one select round
trip: its call trace is nonempty. -/
theorem fetchProfile_calls_ne_nil (responses : Nat → QueryResult) (uid : String) :
    (fetchProfile true responses uid).calls ≠ [] := by
  have h : fetchProfile true responses uid = fetchProfileGo responses uid 3 1 := rfl
  rw [h, fetchProfileGo.eq_def, dif_neg (by omega)]
  cases responses 1 with
  | ok p => simp
  | err c =>
    by_cases hc : c = "PGRST116" <;> by_cases h3 : (1 : Nat) = 3 <;>
      simp [hc, h3]

/-- What the default case actually does on an event with a session user:
adopt session and user, and always run a profile fetch — the guard that
was meant to skip redundant fetches reads the listener closure's
first-render profile binding, permanently null, so it never suppresses
the fetch, whatever profile the store currently holds; the fetched result
replaces the held profile.  Without a session user, everything is
cleared. -/
theorem handleAuthEvent_default_fetches (name : String)
    (responses : Nat → QueryResult) (st : AuthState) (s : Session) (u : User)
    (hu : s.user = some u) :
    (handleAuthEvent responses (AuthEvent.other name) (some s) st).state.session = some s
    ∧ (handleAuthEvent responses (AuthEvent.other name) (some s) st).state.user = some u
    ∧ (handleAuthEvent responses (AuthEvent.other name) (some s) st).calls
        = (fetchProfile true responses u.id).calls
    ∧ (handleAuthEvent responses (AuthEvent.other name) (some s) st).calls ≠ []
    ∧ (handleAuthEvent responses (AuthEvent.other name) (some s) st).state.profile
        = (fetchProfile true responses u.id).profile := by
  have hcalls := fetchProfile_calls_ne_nil responses u.id
  unfold handleAuthEvent eventFinally
  simp [hu, hcalls]

/-- A concrete user carried by a concrete event session. -/
def userW : User := { id := "u2", email := "b@x.io" }

/-- A concrete session around userW. -/
def sessW : Session := { user := some userW, accessToken := "tok" }

/-- A concrete held profile belonging to a different user id (u1). -/
def profW : Profile :=
  { id := "u1", email := "a@x.io", full_name := none,
    role := "client", updated_at := "" }

/-- A concrete store state holding profW, already initialized. -/
def stW : AuthState :=
  { user := none, profile := some profW, session := none,
    loading := false, error := none, initialized := true }

/-- A concrete profile held for the same user id (u2) as userW. -/
def profW2 : Profile :=
  { id := "u2", email := "b@x.io", full_name := none,
    role := "client", updated_at := "" }

/-- A concrete store state already holding the profile of user u2. -/
def stW2 : AuthState :=
  { user := some userW, profile := some profW2, session := none,
    loading := false, error := none, initialized := true }

/-- Claim C8, evaluated at the failing input: the store already holds the
profile of user u2 (held id equals the event user id, first three
conjuncts), and an unrecognized event arrives carrying a session for the
same u2.  The claim — and the source comment above the guard — say the
refetch is skipped; but the guard tests the listener closure's
first-render profile binding, permanently null, so the handler performs a
profile fetch anyway: its call trace is the two select round trips the
respW3 schedule induces. -/
theorem C8_stale_closure_refetch :
    stW2.profile = some profW2
    ∧ profW2.id = userW.id
    ∧ sessW.user = some userW
    ∧ (handleAuthEvent respW3 (AuthEvent.other "PASSWORD_RECOVERY")
        (some sessW) stW2).calls
      = [ProviderCall.profileSelect "u2", ProviderCall.profileSelect "u2"] := by
  refine ⟨rfl, rfl, rfl, ?_⟩
  have h := (handleAuthEvent_default_fetches "PASSWORD_RECOVERY" respW3 stW2
    sessW userW rfl).2.2.1
  have h1 : respW3 1 = QueryResult.err "500" := rfl
  have h2 : respW3 2 = QueryResult.err "PGRST116" := rfl
  have hstep1 := @fetchProfileGo_retry respW3 "u2" 3 1 "500"
    (by omega) h1 (by decide) (by omega)
  have hf2 := @fetchProfileGo_notFound respW3 "u2" 3 2 (by omega) h2
  have hfe : fetchProfile true respW3 "u2" = fetchProfileGo respW3 "u2" 3 1 := rfl
  have hid : userW.id = "u2" := rfl
  rw [h, hid, hfe, hstep1]
  simp [hf2]

/-! Section: Auth state store: signOut -/

/-- What the provider signOut round trip produced: a resolved answer with
a null error field, a resolved answer with a non-null error field (only
logged), or a thrown failure (caught by the catch block). -/
inductive SignOutCallOutcome where
  | ok
  | errResult
  | threw
deriving DecidableEq, Repr

/-- Result of one signOut run: the final store state, the provider calls
made, whether a navigation to the root path was reached (directly or via
the scheduled 100 ms timeout), and the values written to loading. -/
structure SignOutResult where
  state : AuthState
  calls : List ProviderCall
  navigatedToRoot : Bool
  loadingWrites : List Bool
deriving DecidableEq, Repr

/-- Shallow embedding of signOut.  Unconfigured: plain return, nothing
happens.  Configured: loading is set true, the provider signOut round trip
is made; when it resolves (with or without an error field, which is only
logged) the auth state is cleared and a navigation to the root path is
scheduled; when it throws, the catch navigates to the root path directly
and the auth state is not cleared; the finally block sets loading false in
every case. -/
def signOut (cfg : Bool) (outcome : SignOutCallOutcome) (st : AuthState) :
    SignOutResult :=
  if cfg = false then
    { state := st, calls := [], navigatedToRoot := false, loadingWrites := [] }
  else
    match outcome with
    | SignOutCallOutcome.ok =>
      { state := { clearAuthState st with loading := false },
        calls := [ProviderCall.authSignOut], navigatedToRoot := true,
        loadingWrites := [true, false] }
    | SignOutCallOutcome.errResult =>
      { state := { clearAuthState st with loading := false },
        calls := [ProviderCall.authSignOut], navigatedToRoot := true,
        loadingWrites := [true, false] }
    | SignOutCallOutcome.threw =>
      { state := { st with loading := false },
        calls := [ProviderCall.authSignOut], navigatedToRoot := true,
        loadingWrites := [true, false] }

/-- Counterexample to C5 as stated: when the provider signOut call throws
unexpectedly on a store holding user u1, the catch block skips
clearAuthState, so the local user (and profile, session) survive; only the
navigation and the loading reset happen.  So local auth state is not
cleared regardless of the provider response. -/
theorem C5_counterexample :
    (signOut true SignOutCallOutcome.threw stW).navigatedToRoot = true
    ∧ (signOut true SignOutCallOutcome.threw stW).state.profile = some profW := by
  refine ⟨rfl, rfl⟩

/-- Claim C5 (amended): every configured signOut reaches the navigation to
the root path, in all three provider outcomes (resolved without error,
resolved with error, thrown); local auth state is cleared when the call
resolves — with or without an error field — but when the call throws the
state is left as it was (apart from loading), the page navigation alone
replacing it. -/
theorem C5_signout_navigation (st : AuthState) (outcome : SignOutCallOutcome) :
    (signOut true outcome st).navigatedToRoot = true
    ∧ (signOut true SignOutCallOutcome.ok st).state
        = { clearAuthState st with loading := false }
    ∧ (signOut true SignOutCallOutcome.errResult st).state
        = { clearAuthState st with loading := false }
    ∧ (signOut true SignOutCallOutcome.threw st).state
        = { st with loading := false } := by
  refine ⟨?_, rfl, rfl, rfl⟩
  cases outcome <;> rfl

/-! Section: Auth state store: updateProfile and createClient -/

/-- What the profiles update round trip produced: the updated row, or an
error (a thrown failure is the same rethrow path). -/
inductive UpdateOutcome where
  | ok (p : Profile)
  | errResult
deriving DecidableEq, Repr

/-- Result of a mutation operation: the final store state, the provider
calls made, and whether the operation threw to its caller. -/
structure MutationResult where
  state : AuthState
  calls : List ProviderCall
  threw : Bool
deriving DecidableEq, Repr

/-- Shallow embedding of updateProfile(updates).  Without a user (checked
first) or without the provider client, plain return: no call, no state
change, no throw.  Otherwise one update round trip keyed by the user id,
carrying the updates plus a refreshed updated_at timestamp (the
toISOString value is the now parameter); on success the returned row
replaces the local profile; on error the error is rethrown and the state
is untouched. -/
def updateProfile (cfg : Bool) (updates : ProfileUpdates) (now : String)
    (outcome : UpdateOutcome) (st : AuthState) : MutationResult :=
  match st.user with
  | none => { state := st, calls := [], threw := false }
  | some u =>
    if cfg = false then
      { state := st, calls := [], threw := false }
    else
      match outcome with
      | UpdateOutcome.ok p =>
        { state := { st with profile := some p },
          calls := [ProviderCall.profileUpdate u.id updates now],
          threw := false }
      | UpdateOutcome.errResult =>
        { state := st,
          calls := [ProviderCall.profileUpdate u.id updates now],
          threw := true }

/-- Claim C6: for every updates argument (and whatever the provider would
answer), updateProfile on a store with user = null returns without calling
the provider, without throwing, and leaves the whole store state — user,
profile, session, loading, error — unchanged. -/
theorem C6_updateProfile_noop (cfg : Bool) (updates : ProfileUpdates)
    (now : String) (outcome : UpdateOutcome) (st : AuthState)
    (h : st.user = none) :
    updateProfile cfg updates now outcome st
      = { state := st, calls := [], threw := false } := by
  unfold updateProfile
  rw [h]

/-- Witness for C6 at a concrete input: on the initial (unauthenticated)
state, an update of the full name is a no-op. -/
theorem C6_updateProfile_noop_witness :
    updateProfile true
        { email := none, full_name := some "Z K", role := none }
        "2026-01-01T00:00:00.000Z" UpdateOutcome.errResult initialState
      = { state := initialState, calls := [], threw := false } :=
  C6_updateProfile_noop true
    { email := none, full_name := some "Z K", role := none }
    "2026-01-01T00:00:00.000Z" UpdateOutcome.errResult initialState rfl

/-- What the admin createUser round trip produced: a created user, or an
error (including a thrown failure: same rethrow path). -/
inductive CreateUserOutcome where
  | ok (u : User)
  | errResult
deriving DecidableEq, Repr

/-- What the profiles insert round trip produced. -/
inductive InsertOutcome where
  | ok
  | errResult
deriving DecidableEq, Repr

/-- Shallow embedding of createClient(email, password, fullName).
Unconfigured: throws at once.  Otherwise: one admin createUser round trip
(email confirmed, password-change required flag in the metadata); on error
rethrow; on success one profiles insert round trip writing {id, email,
full_name, role client}; on error rethrow.  No branch touches the store
state and no branch makes any further (rollback) call. -/
def createClient (cfg : Bool) (email password : String)
    (fullName : Option String) (cu : CreateUserOutcome) (ins : InsertOutcome)
    (st : AuthState) : MutationResult :=
  if cfg = false then
    { state := st, calls := [], threw := true }
  else
    match cu with
    | CreateUserOutcome.errResult =>
      { state := st,
        calls := [ProviderCall.adminCreateUser email password true fullName true],
        threw := true }
    | CreateUserOutcome.ok u =>
      match ins with
      | InsertOutcome.errResult =>
        { state := st,
          calls := [ProviderCall.adminCreateUser email password true fullName true,
                    ProviderCall.profileInsert u.id email fullName "client"],
          threw := true }
      | InsertOutcome.ok =>
        { state := st,
          calls := [ProviderCall.adminCreateUser email password true fullName true,
                    ProviderCall.profileInsert u.id email fullName "client"],
          threw := false }

/-- Claim C7: when the account-creation step succeeds (returning user u)
and the profile-insert step fails, createClient rethrows to its caller,
leaves the store state (user, profile, session and the rest) unchanged,
and its call trace is exactly the two forward calls — account creation
then profile insert — with no compensating rollback call. -/
theorem C7_createClient_no_rollback (email password : String)
    (fullName : Option String) (u : User) (st : AuthState) :
    createClient true email password fullName (CreateUserOutcome.ok u)
        InsertOutcome.errResult st
      = { state := st,
          calls := [ProviderCall.adminCreateUser email password true fullName true,
                    ProviderCall.profileInsert u.id email fullName "client"],
          threw := true } := by
  rfl

/-! Section: useAuth -/

/-- Shallow embedding of the useAuth hook: the context value is undefined
(none) outside an AuthProvider, in which case the hook throws; inside a
provider it returns the context value. -/
def useAuth {α : Type} (ctx : Option α) : Except String α :=
  match ctx with
  | none => Except.error "useAuth must be used within an AuthProvider"
  | some c => Except.ok c

/-- Claim C10: calling useAuth outside an AuthProvider (context value
undefined) always throws the AuthProvider error rather than returning an
undefined or partial store. -/
theorem C10_useAuth_throws :
    useAuth (none : Option AuthState)
      = Except.error "useAuth must be used within an AuthProvider" := by
  rfl

/-! Section: Executions: sequences of store operations and the loading flag -/

/-- One store operation in an execution: a bootstrap run, a handled auth
event, or a signOut call. -/
inductive Step where
  | init (cfg : Bool) (outcome : SessionFetchOutcome) (responses : Nat → QueryResult)
  | authEvent (responses : Nat → QueryResult) (ev : AuthEvent) (sess : Option Session)
  | signOutStep (cfg : Bool) (outcome : SignOutCallOutcome)

/-- Run one step from a state, returning the next state and the values the
step wrote to the loading flag, in order. -/
def runStep (st : AuthState) : Step → AuthState × List Bool
  | Step.init cfg outcome responses =>
    let r := initializeAuth cfg outcome responses st
    (r.state, r.loadingWrites)
  | Step.authEvent responses ev sess =>
    let r := handleAuthEvent responses ev sess st
    (r.state, r.loadingWrites)
  | Step.signOutStep cfg outcome =>
    let r := signOut cfg outcome st
    (r.state, r.loadingWrites)

/-- Run a sequence of steps, concatenating the loading-flag writes. -/
def runTrace (st : AuthState) : List Step → AuthState × List Bool
  | [] => (st, [])
  | s :: rest =>
    let r := runStep st s
    let r2 := runTrace r.1 rest
    (r2.1, r.2 ++ r2.2)

/-- Counterexample to C9 as stated: the execution that bootstraps (session
fetch resolves with no session) and then signs out writes false, then
true, then false to the loading flag — loading is set to false twice, and
set back to true by signOut after the bootstrap already completed
initialization (second conjunct). -/
theorem C9_counterexample :
    (runTrace initialState
        [Step.init true (SessionFetchOutcome.ok none) respW3,
         Step.signOutStep true SignOutCallOutcome.ok]).2
      = [false, true, false]
    ∧ (runStep initialState
        (Step.init true (SessionFetchOutcome.ok none) respW3)).1.initialized
      = true := by
  refine ⟨rfl, rfl⟩

/-- Claim C9 (amended): during the bootstrap itself the loading flag is
written exactly once — to false — on every terminal outcome (unconfigured,
session error, timeout, thrown failure, no session, or adopted session);
but after initialization completes, a configured signOut writes the flag
again, to true and then back to false. -/
theorem C9_loading_once_per_bootstrap (cfg : Bool)
    (outcome : SessionFetchOutcome) (responses : Nat → QueryResult)
    (st : AuthState) (so : SignOutCallOutcome) :
    (initializeAuth cfg outcome responses st).loadingWrites = [false]
    ∧ (signOut true so st).loadingWrites = [true, false] := by
  constructor
  · cases cfg
    · rfl
    · cases outcome with
      | errResult => rfl
      | timeout => rfl
      | threw => rfl
      | ok s =>
        cases s with
        | none => rfl
        | some s2 =>
          cases hs : s2.user with
          | none => simp [initializeAuth, hs]
          | some u => simp [initializeAuth, hs]
  · cases so <;> rfl

end ClientsHub
